import Mathlib

/-!
# A shallow embedding of `oop.h` (RBS Object Oriented SQF Scripting)

`oop.h` is a preprocessor-macro layer that compiles class declarations into
SQF dispatcher code.  A class registered by `INSTANTIATE_CLASS(className)` is
a single code value that receives an argument array
`[objClassID, member, arg, access]` and routes it:

* special first elements `""`, `"new"`, `"delete"`, `"static"` are handled
  up front (lines 122-135 of `oop.h`);
* otherwise the guard chain produced by the `FUNCTION` / `VARIABLE` /
  `STATIC_VARIABLE` macros is scanned in declaration order, the first guard
  whose access / member / type checks succeed runs its handler
  (`CHECK_ACCESS`, `CHECK_MEMBER`, `CHECK_TYPE`, `CHECK_VAR`, lines 100-104,
  215, 232-233);
* if no guard fires and the class was declared with `CLASS_EXTENDS`, the call
  is forwarded to the parent dispatcher with access level `1`
  (`FINALIZE_CLASS`, line 141); otherwise the code falls off the end and
  yields `nil`.

The embedding below models SQF values as an inductive `Value`, the shared
variable namespace (`NAMESPACE`, default `missionNamespace`) as a function
`String → Option Value` (with `none` for `nil`/unset), and the dispatcher as
a fuel-indexed function `CALLCLASS`.  SQF's `==` on strings is
case-insensitive, which is modelled by `sqfEq`; `isEqualTo` is exact.
Guard handlers (the bodies written by users of `FUNCTION`) are arbitrary
state transformers; the handlers generated by `VARIABLE` /
`STATIC_VARIABLE` (`VAR_DFT_FUNC` / `SVAR_DFT_FUNC`, lines 112-113) are
modelled structurally so the storage-key discipline is visible.

Namespace variable keys are modelled as exact strings; nothing here depends
on the engine's case-folding of variable names, and the three alternative
storage namespaces (`missionNamespace`/`uiNamespace`/`profileNamespace`
selected by the `M_`/`UI_`/`P_` variable macros) are identical copies of the
same pattern, so a single namespace is modelled.
-/

namespace Oop

/-- A reference held by a compiled instance handle: the generated
`_objCode` (line 126 of `oop.h`) closes over the fresh instance identifier
and the class name it was minted from. -/
structure InstanceRef where
  instId : String
  clsName : String
deriving Repr, DecidableEq

/-- SQF runtime values, tagged with their `typeName`.  `nil` is represented
by `Option.none` at use sites.  Code values that occur in the dispatch
protocol are exactly the instance handles produced by `"new"`. -/
inductive Value where
  | vstr : String → Value
  | vnum : Int → Value
  | vbool : Bool → Value
  | vcode : InstanceRef → Value
deriving Repr, DecidableEq

/-- SQF `typeName` of a value. -/
def typeName : Value → String
  | .vstr _ => "STRING"
  | .vnum _ => "SCALAR"
  | .vbool _ => "BOOL"
  | .vcode _ => "CODE"

/-- ASCII case-folding of one character. -/
def lowerChar (c : Char) : Char :=
  if 65 ≤ c.toNat ∧ c.toNat ≤ 90 then Char.ofNat (c.toNat + 32) else c

/-- SQF `==` on strings is case-insensitive (unlike `isEqualTo`): compare
the character lists after ASCII case-folding. -/
def sqfEq (a b : String) : Bool :=
  a.data.map lowerChar == b.data.map lowerChar

/-- The shared variable namespace (`NAMESPACE`, line 153: `missionNamespace`
by default): a total map from variable names to optional values, `none`
meaning nil/unset. -/
abbrev GameState := String → Option Value

/-- `NAMESPACE setVariable [key, v]` (including un-setting with nil). -/
def setVariable (st : GameState) (key : String) (v : Option Value) : GameState :=
  fun k => if k = key then v else st k

/-- The all-nil namespace. -/
def emptyState : GameState := fun _ => none

/-- `_objArgType`: `[typeName _this, ""] select isNil "_this"` (line 138). -/
def argTypeOf : Option Value → String
  | none => ""
  | some v => typeName v

/-- `param [i, ""] with string filter [""]`: element `i` of the argument
array if it is a string, the default `""` otherwise. -/
def paramStr (args : List (Option Value)) (i : Nat) : String :=
  match args.getD i none with
  | some (.vstr s) => s
  | _ => ""

/-- `param [i, dft, [0]]`: element `i` if it is a number, `dft` otherwise. -/
def paramNum (args : List (Option Value)) (i : Nat) (dft : Int) : Int :=
  match args.getD i none with
  | some (.vnum n) => n
  | _ => dft

/-- The call context visible to a member handler: `_objClassID`,
`_objClass`, `_objMember`, `_objAccess` and `_this` (lines 136-139). -/
structure Ctx where
  objClassID : String
  objClass : String
  objMember : String
  objAccess : Int
  arg : Option Value

/-- A user-written member body: a state transformer over the namespace. -/
abbrev Handler := Ctx → GameState → GameState × Option Value

/-- How a guard was declared: `FUNCTION(typeStr, _)` carries its handler
body; `VARIABLE`/`STATIC_VARIABLE` guards always use the generated
`VAR_DFT_FUNC`/`SVAR_DFT_FUNC` handler, so only the type tag is recorded. -/
inductive GuardKind where
  | func : String → Handler → GuardKind
  | var : String → GuardKind
  | svar : String → GuardKind

/-- One guard of a dispatch chain: access level (`PUBLIC`=0, `PROTECTED`=1,
`PRIVATE`=2, lines 200-202), member name, and declaration kind. -/
structure Guard where
  level : Int
  memberName : String
  kind : GuardKind

/-- A registered class: its guard chain in declaration order and the
optional `_objParentClass` set by `CLASS_EXTENDS` (line 186). -/
structure OopClass where
  guards : List Guard
  parent : Option String

/-- The class registry: `NAMESPACE getVariable [className, {nil}]`
(`GETCLASS`, line 108); a missing class behaves as the code `{nil}`. -/
abbrev Registry := String → Option OopClass

/-- `GETVAR(var)`: `format ["%1_%2", _objClassID, var]` (line 106). -/
def GETVAR (objClassID varName : String) : String :=
  objClassID ++ "_" ++ varName

/-- `GETSVAR(var)`: `format ["%1_%2", _objClass, var]` (line 107). -/
def GETSVAR (objClass varName : String) : String :=
  objClass ++ "_" ++ varName

/-- `AUTO_INC_VAR(className)`: `format ["%1_IDAI", className]` (line 89). -/
def AUTO_INC_VAR (className : String) : String :=
  className ++ "_IDAI"

/-- `GET_AUTO_INC(className)`: `NAMESPACE getVariable [AUTO_INC_VAR, 0]`
(line 118).  The dispatcher only ever stores numbers under this key; a
non-number is read as the default `0`. -/
def GET_AUTO_INC (st : GameState) (className : String) : Int :=
  match st (AUTO_INC_VAR className) with
  | some (.vnum n) => n
  | _ => 0

/-- The fresh instance identifier minted by `"new"`:
`format ["%1_%2", className, GET_AUTO_INC(className)]` (line 126). -/
def mkInstId (className : String) (n : Int) : String :=
  className ++ "_" ++ toString n

/-- `CHECK_TYPE(typeStr)`: `(_objArgType == typeStr) || (typeStr == "ANY")`
(line 101). -/
def CHECK_TYPE (objArgType typeStr : String) : Bool :=
  sqfEq objArgType typeStr || sqfEq typeStr "ANY"

/-- `CHECK_NIL`: `(_objArgType == "")` (line 102). -/
def CHECK_NIL (objArgType : String) : Bool :=
  objArgType == ""

/-- The full guard predicate assembled by `PRIVATE/PROTECTED/PUBLIC`
(`CHECK_ACCESS`) with `FUNCTION` (member and type checks, line 215) or
`VARIABLE`/`STATIC_VARIABLE` (`CHECK_VAR`: member, then type-or-nil,
line 104). -/
def matchGuard (g : Guard) (objAccess : Int) (objMember objArgType : String) : Bool :=
  decide (g.level ≤ objAccess) && sqfEq objMember g.memberName &&
    (match g.kind with
     | .func typeStr _ => CHECK_TYPE objArgType typeStr
     | .var typeStr => CHECK_TYPE objArgType typeStr || CHECK_NIL objArgType
     | .svar typeStr => CHECK_TYPE objArgType typeStr || CHECK_NIL objArgType)

/-- `VAR_DFT_FUNC(varName, NAMESPACE)` (line 112): nil argument reads the
instance-keyed variable; a present argument writes it.  The write path ends
in `setVariable`, whose SQF result is Nothing, so the call yields nil. -/
def VAR_DFT_FUNC (varName : String) (ctx : Ctx) (st : GameState) :
    GameState × Option Value :=
  match ctx.arg with
  | none => (st, st (GETVAR ctx.objClassID varName))
  | some v => (setVariable st (GETVAR ctx.objClassID varName) (some v), none)

/-- `SVAR_DFT_FUNC(varName, NAMESPACE)` (line 113): like `VAR_DFT_FUNC` but
keyed by the class name (`GETSVAR`), hence shared by all instances. -/
def SVAR_DFT_FUNC (varName : String) (ctx : Ctx) (st : GameState) :
    GameState × Option Value :=
  match ctx.arg with
  | none => (st, st (GETSVAR ctx.objClass varName))
  | some v => (setVariable st (GETSVAR ctx.objClass varName) (some v), none)

/-- Run the handler of a matched guard. -/
def execGuard (g : Guard) (ctx : Ctx) (st : GameState) : GameState × Option Value :=
  match g.kind with
  | .func _ h => h ctx st
  | .var _ => VAR_DFT_FUNC g.memberName ctx st
  | .svar _ => SVAR_DFT_FUNC g.memberName ctx st

/-- `"constructor"` (line 87). -/
def CONSTRUCTOR_METHOD : String := "constructor"

/-- `"deconstructor"` (line 88). -/
def DECONSTRUCTOR_METHOD : String := "deconstructor"

/-- `[args] call GETCLASS(className)`: the dispatcher produced by
`INSTANTIATE_CLASS(className) ... FINALIZE_CLASS` (lines 120-141), with a
fuel parameter bounding the depth of nested dispatches (constructor calls,
`delete`/`static` self-calls, parent forwarding).  Exhausted fuel yields
nil; every theorem below supplies enough fuel explicitly. -/
def CALLCLASS (reg : Registry) : Nat → String → List (Option Value) → GameState →
    GameState × Option Value
  | 0, _, _, st => (st, none)
  | Nat.succ fuel, className, args, st =>
    match reg className with
    | none => (st, none)
    | some cls =>
      -- private _objClassID = param [0, "", [""]];
      let objClassID := paramStr args 0
      -- if (_objClassID isEqualTo "") exitWith {nil};
      if objClassID = "" then (st, none)
      -- if (_objClassID == "new") exitWith { ... };
      else if sqfEq objClassID "new" then
        let st1 := setVariable st (AUTO_INC_VAR className)
          (some (.vnum (GET_AUTO_INC st className + 1)))
        let instId := mkInstId className (GET_AUTO_INC st1 className)
        let res := CALLCLASS reg fuel className
          [some (.vstr instId), some (.vstr CONSTRUCTOR_METHOD),
           args.getD 1 none, some (.vnum 0)] st1
        (res.1, some (.vcode ⟨instId, className⟩))
      -- if (_objClassID == "delete") exitWith { ... };
      else if sqfEq objClassID "delete" then
        match args.getD 1 none with
        | some (.vcode r) =>
          CALLCLASS reg fuel r.clsName
            [some (.vstr r.instId), some (.vstr DECONSTRUCTOR_METHOD),
             args.getD 2 none, some (.vnum 0)] st
        | _ => (st, none)
      -- if (_objClassID == "static") exitWith { ... };
      else if sqfEq objClassID "static" then
        CALLCLASS reg fuel className
          [some (.vstr className), some (.vstr (paramStr args 1)),
           args.getD 2 none, some (.vnum 0)] st
      else
        -- params ["", ["_objMember", "", [""]], ["_this", nil], ["_objAccess", 0, [0]]];
        let objMember := paramStr args 1
        if objMember = "" then (st, none)
        else
          let arg := args.getD 2 none
          let objAccess := paramNum args 3 0
          let objArgType := argTypeOf arg
          match cls.guards.find? (fun g => matchGuard g objAccess objMember objArgType) with
          | some g =>
            execGuard g
              { objClassID := objClassID, objClass := className,
                objMember := objMember, objAccess := objAccess, arg := arg } st
          | none =>
            match cls.parent with
            | some p =>
              CALLCLASS reg fuel p
                [some (.vstr objClassID), some (.vstr objMember), arg, some (.vnum 1)] st
            | none => (st, none)

/-- The compiled instance handle `_objCode` (line 126): called with
`[member, arg]` it re-enters the class dispatcher as
`[instId, member, arg, 0]`. -/
def callInstance (reg : Registry) (fuel : Nat) (r : InstanceRef)
    (args : List (Option Value)) (st : GameState) : GameState × Option Value :=
  CALLCLASS reg fuel r.clsName
    [some (.vstr r.instId), some (.vstr (paramStr args 0)),
     args.getD 1 none, some (.vnum 0)] st

/-- A member call that matches nowhere along an ancestor chain:
`unmatchedChain reg member argType acc (c₀ :: cs)` says class `c₀` is
registered, none of its guards match `(acc, member, argType)`, its parent
link points at the head of `cs` (or is absent when `cs = []`), and the rest
of the chain is likewise unmatched at the forwarded access level `1`. -/
def unmatchedChain (reg : Registry) (member argType : String) : Int → List String → Prop
  | _, [] => True
  | acc, c :: rest =>
    ∃ cls, reg c = some cls
      ∧ (∀ g ∈ cls.guards, matchGuard g acc member argType = false)
      ∧ (match rest with
         | [] => cls.parent = none
         | p :: _ => cls.parent = some p)
      ∧ unmatchedChain reg member argType 1 rest

/-! ## Decimal-numeral facts

`mkInstId` renders the auto-increment counter with `toString`; to reason
about identifier distinctness we verify that the decimal rendering of a
natural number is injective, via an explicit digit-list function `decList`
that agrees with core's fuel-driven `Nat.toDigitsCore`. -/

/-- Decimal digit characters of `n`, most significant first. -/
def decList (n : Nat) : List Char :=
  if _h : n < 10 then [Nat.digitChar n]
  else decList (n / 10) ++ [Nat.digitChar (n % 10)]
termination_by n
decreasing_by exact Nat.div_lt_self (by omega) (by omega)

/-! ## Concrete scenario classes used to exercise the dispatcher -/

/-- A handler that ignores everything and returns the number `42`. -/
def hGet42 : Handler := fun _ st => (st, some (.vnum 42))

/-- A handler that ignores everything and returns the string `"ok"`. -/
def hOk : Handler := fun _ st => (st, some (.vstr "ok"))

/-- `CLASS("CV")` with a single `PUBLIC VARIABLE("SCALAR","v")`. -/
def clsCV : OopClass := ⟨[⟨0, "v", .var "SCALAR"⟩], none⟩

/-- Registry holding only `CV`. -/
def regCV : Registry := fun n => if n = "CV" then some clsCV else none

/-- `CLASS("S")` with a single `PRIVATE FUNCTION("","secret")`. -/
def clsS : OopClass := ⟨[⟨2, "secret", .func "" hOk⟩], none⟩

/-- Registry holding only `S`. -/
def regS : Registry := fun n => if n = "S" then some clsS else none

/-- `CLASS("Pa")` with a single `PROTECTED FUNCTION("ANY","m")`. -/
def clsPa : OopClass := ⟨[⟨1, "m", .func "ANY" hGet42⟩], none⟩

/-- `CLASS_EXTENDS("Ch","Pa")` with no members of its own. -/
def clsCh : OopClass := ⟨[], some "Pa"⟩

/-- Registry holding the parent/child pair `Pa`/`Ch`. -/
def regI : Registry :=
  fun n => if n = "Pa" then some clsPa else if n = "Ch" then some clsCh else none

/-- Two guards for the same member `"m"`, both `PUBLIC FUNCTION("ANY","m")`
with distinguishable handlers: used to observe declaration-order
precedence. -/
def gM1 : Guard := ⟨0, "m", .func "ANY" hGet42⟩

/-- Second guard for `"m"`; its handler returns `"ok"` instead. -/
def gM2 : Guard := ⟨0, "m", .func "ANY" hOk⟩

/-- `CLASS("D")` declaring `gM1` before `gM2`. -/
def clsD : OopClass := ⟨[gM1, gM2], none⟩

/-- Registry holding only `D`. -/
def regD : Registry := fun n => if n = "D" then some clsD else none

/-- A third guard for `"m"` with yet another handler. -/
def gM3 : Guard := ⟨0, "m", .func "ANY" (fun _ st => (st, some (.vbool false)))⟩

/-- `CLASS("D")` declaring `gM1` and then a different tail: used to show the
dispatch result does not depend on guards after the first match. -/
def clsD' : OopClass := ⟨[gM1, gM3], none⟩

/-- Registry holding the variant `D`. -/
def regD' : Registry := fun n => if n = "D" then some clsD' else none

/-- `CLASS("SV")` with `PUBLIC STATIC_VARIABLE("SCALAR","sv")` and
`PUBLIC VARIABLE("SCALAR","iv")`. -/
def clsSV : OopClass := ⟨[⟨0, "sv", .svar "SCALAR"⟩, ⟨0, "iv", .var "SCALAR"⟩], none⟩

/-- Registry holding only `SV`. -/
def regSV : Registry := fun n => if n = "SV" then some clsSV else none

/-- `CLASS("PC")` whose constructor is `PRIVATE` and whose deconstructor is
`PROTECTED` (both `FUNCTION("ANY",...)`). -/
def clsPC : OopClass :=
  ⟨[⟨2, "constructor", .func "ANY" hOk⟩, ⟨1, "deconstructor", .func "ANY" hOk⟩], none⟩

/-- Registry holding only `PC`. -/
def regPC : Registry := fun n => if n = "PC" then some clsPC else none

/-! ## Lemmas: decimal numerals -/

theorem toDigitsCore_eq_decList :
    ∀ (fuel n : Nat) (ds : List Char), n < fuel →
      Nat.toDigitsCore 10 fuel n ds = decList n ++ ds := by
  intro fuel
  induction fuel with
  | zero => intro n ds h; omega
  | succ f ih =>
    intro n ds h
    by_cases h10 : n < 10
    · have hdiv : n / 10 = 0 := by omega
      rw [Nat.toDigitsCore]
      simp only [hdiv, if_pos rfl]
      rw [decList]
      simp [h10, Nat.mod_eq_of_lt h10]
    · have hdiv : ¬ n / 10 = 0 := by omega
      rw [Nat.toDigitsCore]
      simp only [hdiv, if_false]
      rw [ih (n / 10) _ (by omega)]
      conv_rhs => rw [decList]
      simp [h10]

theorem repr_eq_decList (n : Nat) : Nat.repr n = (decList n).asString := by
  show (Nat.toDigits 10 n).asString = _
  rw [Nat.toDigits, toDigitsCore_eq_decList (n + 1) n [] (by omega)]
  simp

theorem digitChar_toNat (d : Nat) (h : d < 10) : (Nat.digitChar d).toNat = 48 + d := by
  interval_cases d <;> rfl

theorem decList_foldl (n : Nat) :
    ∀ a : Nat, (decList n).foldl (fun acc c => acc * 10 + (c.toNat - 48)) a
      = a * 10 ^ (decList n).length + n := by
  induction n using Nat.strong_induction_on with
  | _ n ih =>
    intro a
    rw [decList]
    by_cases h10 : n < 10
    · simp [h10, digitChar_toNat n h10]
    · simp only [h10, dite_false, List.foldl_append, List.foldl_cons, List.foldl_nil,
        List.length_append, List.length_cons, List.length_nil]
      rw [ih (n / 10) (Nat.div_lt_self (by omega) (by omega)) a]
      rw [digitChar_toNat (n % 10) (Nat.mod_lt _ (by omega))]
      have hsub : 48 + n % 10 - 48 = n % 10 := by omega
      rw [hsub]
      have hmod : 10 * (n / 10) + n % 10 = n := Nat.div_add_mod n 10
      calc (a * 10 ^ (decList (n / 10)).length + n / 10) * 10 + n % 10
          = a * (10 ^ (decList (n / 10)).length * 10) + (10 * (n / 10) + n % 10) := by ring
        _ = a * 10 ^ ((decList (n / 10)).length + (0 + 1)) + n := by
              rw [hmod, pow_succ]

theorem decList_inj {m n : Nat} (h : decList m = decList n) : m = n := by
  have hm := decList_foldl m 0
  have hn := decList_foldl n 0
  rw [h] at hm
  simp only [Nat.zero_mul, Nat.zero_add] at hm hn
  rw [hm] at hn
  exact hn

theorem natRepr_inj {m n : Nat} (h : Nat.repr m = Nat.repr n) : m = n := by
  rw [repr_eq_decList, repr_eq_decList] at h
  exact decList_inj (congrArg String.data h)

theorem intToString_inj {a b : Int} (ha : 0 ≤ a) (hb : 0 ≤ b)
    (h : toString a = toString b) : a = b := by
  obtain ⟨m, rfl⟩ := Int.eq_ofNat_of_zero_le ha
  obtain ⟨n, rfl⟩ := Int.eq_ofNat_of_zero_le hb
  have hr : Nat.repr m = Nat.repr n := h
  exact congrArg Int.ofNat (natRepr_inj hr)

theorem string_data_inj {s t : String} (h : s.data = t.data) : s = t := by
  cases s; cases t; exact congrArg String.mk h

theorem mkInstId_inj (cn : String) {a b : Int} (ha : 0 ≤ a) (hb : 0 ≤ b)
    (hne : a ≠ b) : mkInstId cn a ≠ mkInstId cn b := by
  intro h
  apply hne
  apply intToString_inj ha hb
  have hd := congrArg String.data h
  simp only [mkInstId, String.data_append, List.append_assoc] at hd
  have h1 := List.append_cancel_left hd
  have h2 := List.append_cancel_left h1
  exact string_data_inj h2

/-! ## Lemmas: dispatcher unfolding -/

theorem GET_AUTO_INC_set (st : GameState) (cn : String) (c : Int) :
    GET_AUTO_INC (setVariable st (AUTO_INC_VAR cn) (some (.vnum c))) cn = c := by
  simp [GET_AUTO_INC, setVariable]

theorem GET_AUTO_INC_eq (st : GameState) (cn : String) (c : Int)
    (h : st (AUTO_INC_VAR cn) = some (.vnum c)) : GET_AUTO_INC st cn = c := by
  simp [GET_AUTO_INC, h]

/-- Unfolding of one step of `CALLCLASS` on a general member call: after the
`""`/`"new"`/`"delete"`/`"static"` branches have been ruled out, the chain
is scanned and the parent (if any) is consulted with access level `1`. -/
theorem CALLCLASS_member_eq (reg : Registry) (fuel : Nat) (cn : String) (cls : OopClass)
    (id member : String) (arg : Option Value) (acc : Int) (st : GameState)
    (hreg : reg cn = some cls) (hid : ¬ id = "")
    (hnew : sqfEq id "new" = false) (hdel : sqfEq id "delete" = false)
    (hsta : sqfEq id "static" = false) (hmem : ¬ member = "") :
    CALLCLASS reg (fuel + 1) cn
        [some (.vstr id), some (.vstr member), arg, some (.vnum acc)] st
      = match cls.guards.find? (fun g => matchGuard g acc member (argTypeOf arg)) with
        | some g => execGuard g ⟨id, cn, member, acc, arg⟩ st
        | none =>
          match cls.parent with
          | some p => CALLCLASS reg fuel p
              [some (.vstr id), some (.vstr member), arg, some (.vnum 1)] st
          | none => (st, none) := by
  simp [CALLCLASS, hreg, paramStr, paramNum, hid, hnew, hdel, hsta, hmem]

/-- Unfolding of the `"new"` branch (lines 124-129): bump the per-class
counter, mint the identifier from the bumped counter, run the constructor
through the freshly compiled instance handle at access level `0`, and
return the handle. -/
theorem CALLCLASS_new_eq (reg : Registry) (fuel : Nat) (cn : String) (cls : OopClass)
    (a : Option Value) (st : GameState) (hreg : reg cn = some cls) :
    CALLCLASS reg (fuel + 1) cn [some (.vstr "new"), a] st
      = ((CALLCLASS reg fuel cn
            [some (.vstr (mkInstId cn (GET_AUTO_INC st cn + 1))),
             some (.vstr CONSTRUCTOR_METHOD), a, some (.vnum 0)]
            (setVariable st (AUTO_INC_VAR cn) (some (.vnum (GET_AUTO_INC st cn + 1))))).1,
         some (.vcode ⟨mkInstId cn (GET_AUTO_INC st cn + 1), cn⟩)) := by
  have h1 : sqfEq "new" "new" = true := by decide
  simp [CALLCLASS, hreg, paramStr, h1, GET_AUTO_INC_set]

/-- Unfolding of the `"delete"` branch (lines 130-132) on a code handle:
call the handle with the deconstructor member, which re-enters the handle's
own class at access level `0`. -/
theorem CALLCLASS_delete_eq (reg : Registry) (fuel : Nat) (cn : String) (cls : OopClass)
    (r : InstanceRef) (x : Option Value) (st : GameState) (hreg : reg cn = some cls) :
    CALLCLASS reg (fuel + 1) cn [some (.vstr "delete"), some (.vcode r), x] st
      = CALLCLASS reg fuel r.clsName
          [some (.vstr r.instId), some (.vstr DECONSTRUCTOR_METHOD), x, some (.vnum 0)] st := by
  have h1 : sqfEq "delete" "new" = false := by decide
  have h2 : sqfEq "delete" "delete" = true := by decide
  simp [CALLCLASS, hreg, paramStr, h1, h2]

/-- Unfolding of the `"delete"` branch when the handle argument is absent:
`param [1, {nil}, [{}]]` falls back to the code `{nil}`, so the call yields
nil and the state is untouched. -/
theorem CALLCLASS_delete_absent (reg : Registry) (fuel : Nat) (cn : String) (cls : OopClass)
    (x : Option Value) (st : GameState) (hreg : reg cn = some cls) :
    CALLCLASS reg (fuel + 1) cn [some (.vstr "delete"), none, x] st = (st, none) := by
  have h1 : sqfEq "delete" "new" = false := by decide
  have h2 : sqfEq "delete" "delete" = true := by decide
  simp [CALLCLASS, hreg, paramStr, h1, h2]

/-- Unfolding of the `"static"` branch (lines 133-135): re-enter the same
class with the class name as `_objClassID` and access level `0`. -/
theorem CALLCLASS_static_eq (reg : Registry) (fuel : Nat) (cn : String) (cls : OopClass)
    (ms : String) (x : Option Value) (st : GameState) (hreg : reg cn = some cls) :
    CALLCLASS reg (fuel + 1) cn [some (.vstr "static"), some (.vstr ms), x] st
      = CALLCLASS reg fuel cn
          [some (.vstr cn), some (.vstr ms), x, some (.vnum 0)] st := by
  have h1 : sqfEq "static" "new" = false := by decide
  have h2 : sqfEq "static" "delete" = false := by decide
  have h3 : sqfEq "static" "static" = true := by decide
  simp [CALLCLASS, hreg, paramStr, h1, h2, h3]

/-- `List.find?` returns the head of the first satisfied suffix. -/
theorem find?_append_cons {α : Type} (p : α → Bool) (pre post : List α) (g : α)
    (hpre : ∀ x ∈ pre, p x = false) (hg : p g = true) :
    (pre ++ g :: post).find? p = some g := by
  induction pre with
  | nil => simp [List.find?_cons_of_pos, hg]
  | cons a l ih =>
    have ha : p a = false := hpre a (by simp)
    rw [List.cons_append, List.find?_cons_of_neg _ (by simp [ha])]
    exact ih (fun x hx => hpre x (by simp [hx]))

/-- A member call that matches no guard anywhere along a fully unmatched
ancestor chain yields nil and leaves the namespace untouched. -/
theorem chain_absent (reg : Registry) (member : String) (arg : Option Value) (id : String)
    (hid : ¬ id = "") (hnew : sqfEq id "new" = false) (hdel : sqfEq id "delete" = false)
    (hsta : sqfEq id "static" = false) (hmem : ¬ member = "") :
    ∀ (rest : List String) (c0 : String) (acc : Int) (fuel : Nat) (st : GameState),
      unmatchedChain reg member (argTypeOf arg) acc (c0 :: rest) →
      rest.length < fuel →
      CALLCLASS reg fuel c0
        [some (.vstr id), some (.vstr member), arg, some (.vnum acc)] st = (st, none) := by
  intro rest
  induction rest with
  | nil =>
    intro c0 acc fuel st hchain hlen
    obtain ⟨cls, hreg, hnom, hpar, _⟩ := hchain
    obtain ⟨f, rfl⟩ : ∃ f, fuel = f + 1 := ⟨fuel - 1, by omega⟩
    rw [CALLCLASS_member_eq reg f c0 cls id member arg acc st hreg hid hnew hdel hsta hmem]
    have hfind : cls.guards.find?
        (fun g => matchGuard g acc member (argTypeOf arg)) = none := by
      apply List.find?_eq_none.mpr
      intro g hg
      simp [hnom g hg]
    rw [hfind]
    simp only at hpar
    rw [hpar]
  | cons p rest'' ih =>
    intro c0 acc fuel st hchain hlen
    obtain ⟨cls, hreg, hnom, hpar, hrest⟩ := hchain
    obtain ⟨f, rfl⟩ : ∃ f, fuel = f + 1 := ⟨fuel - 1, by omega⟩
    rw [CALLCLASS_member_eq reg f c0 cls id member arg acc st hreg hid hnew hdel hsta hmem]
    have hfind : cls.guards.find?
        (fun g => matchGuard g acc member (argTypeOf arg)) = none := by
      apply List.find?_eq_none.mpr
      intro g hg
      simp [hnom g hg]
    rw [hfind]
    simp only at hpar
    rw [hpar]
    exact ih p 1 f st hrest (by simp at hlen; omega)

/-! ## Claims -/

/-- C1 counterexample.  The claim asserts that invoking a variable member
with a present argument returns that same value.  On `CLASS("CV")` with
`PUBLIC VARIABLE("SCALAR","v")`, writing `5` through instance `CV_1` stores
`5` under the key `CV_1_v` but the call returns nil (`VAR_DFT_FUNC` ends in
`setVariable`, whose result is Nothing), not `5`. -/
theorem var_write_result_cex :
    (CALLCLASS regCV 3 "CV"
        [some (.vstr "CV_1"), some (.vstr "v"), some (.vnum 5), some (.vnum 2)]
        emptyState).2 = none
    ∧ (CALLCLASS regCV 3 "CV"
        [some (.vstr "CV_1"), some (.vstr "v"), some (.vnum 5), some (.vnum 2)]
        emptyState).2 ≠ some (.vnum 5)
    ∧ (CALLCLASS regCV 3 "CV"
        [some (.vstr "CV_1"), some (.vstr "v"), some (.vnum 5), some (.vnum 2)]
        emptyState).1 (GETVAR "CV_1" "v") = some (.vnum 5) := by
  refine ⟨by decide, by decide, by decide⟩

/-- C1 (amended).  For every variable member guard selected by the
dispatcher, invoking it with an absent (nil) argument returns the currently
stored value (or an absent result before any write), and invoking it with a
present argument stores that argument under the variable's storage key and
returns an absent (nil) result — not the written value. -/
theorem var_get_set (reg : Registry) (fuel : Nat) (cn : String) (cls : OopClass)
    (id member : String) (acc : Int) (v : Value) (g : Guard) (t : String) (st : GameState)
    (hreg : reg cn = some cls) (hid : ¬ id = "")
    (hnew : sqfEq id "new" = false) (hdel : sqfEq id "delete" = false)
    (hsta : sqfEq id "static" = false) (hmem : ¬ member = "")
    (hkind : g.kind = .var t)
    (hfindR : cls.guards.find? (fun g' => matchGuard g' acc member "") = some g)
    (hfindW : cls.guards.find? (fun g' => matchGuard g' acc member (typeName v)) = some g) :
    CALLCLASS reg (fuel + 1) cn
        [some (.vstr id), some (.vstr member), none, some (.vnum acc)] st
      = (st, st (GETVAR id g.memberName))
    ∧ CALLCLASS reg (fuel + 1) cn
        [some (.vstr id), some (.vstr member), some v, some (.vnum acc)] st
      = (setVariable st (GETVAR id g.memberName) (some v), none) := by
  constructor
  · rw [CALLCLASS_member_eq reg fuel cn cls id member none acc st hreg hid hnew hdel hsta hmem]
    have ha : argTypeOf none = "" := rfl
    rw [ha, hfindR]
    simp [execGuard, hkind, VAR_DFT_FUNC]
  · rw [CALLCLASS_member_eq reg fuel cn cls id member (some v) acc st hreg hid hnew hdel hsta hmem]
    have ha : argTypeOf (some v) = typeName v := rfl
    rw [ha, hfindW]
    simp [execGuard, hkind, VAR_DFT_FUNC]

/-- C1 witness: instantiate `var_get_set` on `CLASS("CV")`, instance
`CV_1`, value `5`. -/
theorem var_get_set_witness :
    CALLCLASS regCV 3 "CV"
        [some (.vstr "CV_1"), some (.vstr "v"), none, some (.vnum 2)] emptyState
      = (emptyState, emptyState (GETVAR "CV_1" "v"))
    ∧ CALLCLASS regCV 3 "CV"
        [some (.vstr "CV_1"), some (.vstr "v"), some (.vnum 5), some (.vnum 2)] emptyState
      = (setVariable emptyState (GETVAR "CV_1" "v") (some (.vnum 5)), none) :=
  var_get_set regCV 2 "CV" clsCV "CV_1" "v" 2 (.vnum 5) ⟨0, "v", .var "SCALAR"⟩ "SCALAR"
    emptyState rfl (by decide) (by decide) (by decide) (by decide) (by decide) rfl rfl rfl

/-- C2.  If the guard chain is `pre ++ g1 :: mid ++ g2 :: post` where no
guard of `pre` matches and both `g1` and `g2` match the
(access, member, argument-type) triple, the dispatched call runs `g1`'s
handler; and the result is identical for any other tail `g2' :: post'` and
parent, so the later guard is never consulted. -/
theorem first_match_wins (reg reg' : Registry) (fuel : Nat) (cn : String)
    (cls cls' : OopClass) (pre mid post post' : List Guard) (g1 g2 g2' : Guard)
    (id member : String) (arg : Option Value) (acc : Int) (st : GameState)
    (hreg : reg cn = some cls) (hreg' : reg' cn = some cls')
    (hg : cls.guards = pre ++ g1 :: (mid ++ g2 :: post))
    (hg' : cls'.guards = pre ++ g1 :: (mid ++ g2' :: post'))
    (hid : ¬ id = "") (hnew : sqfEq id "new" = false) (hdel : sqfEq id "delete" = false)
    (hsta : sqfEq id "static" = false) (hmem : ¬ member = "")
    (hpre : ∀ g ∈ pre, matchGuard g acc member (argTypeOf arg) = false)
    (h1 : matchGuard g1 acc member (argTypeOf arg) = true)
    (_h2 : matchGuard g2 acc member (argTypeOf arg) = true) :
    CALLCLASS reg (fuel + 1) cn
        [some (.vstr id), some (.vstr member), arg, some (.vnum acc)] st
      = execGuard g1 ⟨id, cn, member, acc, arg⟩ st
    ∧ CALLCLASS reg' (fuel + 1) cn
        [some (.vstr id), some (.vstr member), arg, some (.vnum acc)] st
      = execGuard g1 ⟨id, cn, member, acc, arg⟩ st := by
  have hfind := find?_append_cons (fun g => matchGuard g acc member (argTypeOf arg))
    pre (mid ++ g2 :: post) g1 hpre h1
  have hfind' := find?_append_cons (fun g => matchGuard g acc member (argTypeOf arg))
    pre (mid ++ g2' :: post') g1 hpre h1
  constructor
  · rw [CALLCLASS_member_eq reg fuel cn cls id member arg acc st hreg hid hnew hdel hsta hmem]
    rw [hg, hfind]
  · rw [CALLCLASS_member_eq reg' fuel cn cls' id member arg acc st hreg' hid hnew hdel hsta hmem]
    rw [hg', hfind']

/-- C2 witness: `CLASS("D")` declares two `PUBLIC FUNCTION("ANY","m")`
guards; the first one (returning `42`) runs, in both the original chain and
a variant with a different second guard. -/
theorem first_match_wins_witness :
    CALLCLASS regD 1 "D"
        [some (.vstr "D_1"), some (.vstr "m"), some (.vbool true), some (.vnum 0)] emptyState
      = execGuard gM1 ⟨"D_1", "D", "m", 0, some (.vbool true)⟩ emptyState
    ∧ CALLCLASS regD' 1 "D"
        [some (.vstr "D_1"), some (.vstr "m"), some (.vbool true), some (.vnum 0)] emptyState
      = execGuard gM1 ⟨"D_1", "D", "m", 0, some (.vbool true)⟩ emptyState :=
  first_match_wins regD regD' 0 "D" clsD clsD' [] [] [] [] gM1 gM2 gM3
    "D_1" "m" (some (.vbool true)) 0 emptyState rfl rfl rfl rfl
    (by decide) (by decide) (by decide) (by decide) (by decide)
    (by intro g hg; exact absurd hg (by simp)) (by decide) (by decide)

/-- C3.  A member call that matches no guard of the current class is
forwarded to the registered parent with the same instance identifier,
member and argument and with access level fixed to `1` (Protected); if the
class has no parent the call yields nil with the namespace untouched; and a
call unmatched along a whole ancestor chain yields nil. -/
theorem inheritance_forwarding (reg : Registry) (fuel : Nat) (cn : String) (cls : OopClass)
    (id member : String) (arg : Option Value) (acc : Int) (st : GameState) (p : String)
    (rest : List String)
    (hid : ¬ id = "") (hnew : sqfEq id "new" = false) (hdel : sqfEq id "delete" = false)
    (hsta : sqfEq id "static" = false) (hmem : ¬ member = "") :
    (reg cn = some cls →
      (∀ g ∈ cls.guards, matchGuard g acc member (argTypeOf arg) = false) →
      cls.parent = some p →
      CALLCLASS reg (fuel + 1) cn
          [some (.vstr id), some (.vstr member), arg, some (.vnum acc)] st
        = CALLCLASS reg fuel p
            [some (.vstr id), some (.vstr member), arg, some (.vnum 1)] st)
    ∧ (reg cn = some cls →
        (∀ g ∈ cls.guards, matchGuard g acc member (argTypeOf arg) = false) →
        cls.parent = none →
        CALLCLASS reg (fuel + 1) cn
            [some (.vstr id), some (.vstr member), arg, some (.vnum acc)] st = (st, none))
    ∧ (unmatchedChain reg member (argTypeOf arg) acc (cn :: rest) →
        rest.length < fuel →
        CALLCLASS reg fuel cn
            [some (.vstr id), some (.vstr member), arg, some (.vnum acc)] st = (st, none)) := by
  refine ⟨?_, ?_, ?_⟩
  · intro hreg hnom hpar
    rw [CALLCLASS_member_eq reg fuel cn cls id member arg acc st hreg hid hnew hdel hsta hmem]
    have hfind : cls.guards.find?
        (fun g => matchGuard g acc member (argTypeOf arg)) = none := by
      apply List.find?_eq_none.mpr
      intro g hg
      simp [hnom g hg]
    rw [hfind, hpar]
  · intro hreg hnom hpar
    rw [CALLCLASS_member_eq reg fuel cn cls id member arg acc st hreg hid hnew hdel hsta hmem]
    have hfind : cls.guards.find?
        (fun g => matchGuard g acc member (argTypeOf arg)) = none := by
      apply List.find?_eq_none.mpr
      intro g hg
      simp [hnom g hg]
    rw [hfind, hpar]
  · intro hchain hlen
    exact chain_absent reg member arg id hid hnew hdel hsta hmem rest cn acc fuel st hchain hlen

/-- C3 witness: `CLASS_EXTENDS("Ch","Pa")` with no own guards forwards
`"m"` to `Pa` at access level `1`; the member `"zz"` matched nowhere along
the chain `Ch → Pa` yields nil without touching the namespace. -/
theorem inheritance_forwarding_witness :
    CALLCLASS regI 2 "Ch"
        [some (.vstr "Ch_1"), some (.vstr "m"), some (.vbool true), some (.vnum 0)] emptyState
      = CALLCLASS regI 1 "Pa"
          [some (.vstr "Ch_1"), some (.vstr "m"), some (.vbool true), some (.vnum 1)] emptyState
    ∧ CALLCLASS regI 2 "Ch"
        [some (.vstr "Ch_1"), some (.vstr "zz"), none, some (.vnum 0)] emptyState
      = (emptyState, none) := by
  constructor
  · exact (inheritance_forwarding regI 1 "Ch" clsCh "Ch_1" "m" (some (.vbool true)) 0
      emptyState "Pa" [] (by decide) (by decide) (by decide) (by decide) (by decide)).1
      rfl (by intro g hg; exact absurd hg (by simp [clsCh])) rfl
  · exact (inheritance_forwarding regI 2 "Ch" clsCh "Ch_1" "zz" none 0
      emptyState "Pa" ["Pa"] (by decide) (by decide) (by decide) (by decide) (by decide)).2.2
      ⟨clsCh, rfl, by intro g hg; exact absurd hg (by simp [clsCh]), rfl,
        clsPa, rfl,
        (by intro g hg
            simp only [clsPa, List.mem_singleton] at hg
            subst hg
            decide),
        rfl, trivial⟩
      (by decide)

/-- C4.  A direct (non-inherited) invocation whose requester access level is
strictly below the access level of every guard carrying the requested
member name runs no handler and yields nil with the namespace untouched. -/
theorem access_below_level (reg : Registry) (fuel : Nat) (cn : String) (cls : OopClass)
    (id member : String) (arg : Option Value) (acc : Int) (st : GameState)
    (hreg : reg cn = some cls) (hid : ¬ id = "")
    (hnew : sqfEq id "new" = false) (hdel : sqfEq id "delete" = false)
    (hsta : sqfEq id "static" = false) (hmem : ¬ member = "")
    (hlow : ∀ g ∈ cls.guards, sqfEq member g.memberName = true → acc < g.level)
    (hpar : cls.parent = none) :
    CALLCLASS reg (fuel + 1) cn
        [some (.vstr id), some (.vstr member), arg, some (.vnum acc)] st = (st, none) := by
  rw [CALLCLASS_member_eq reg fuel cn cls id member arg acc st hreg hid hnew hdel hsta hmem]
  have hfind : cls.guards.find?
      (fun g => matchGuard g acc member (argTypeOf arg)) = none := by
    apply List.find?_eq_none.mpr
    intro g hg hcontra
    simp only [matchGuard, Bool.and_eq_true, decide_eq_true_eq] at hcontra
    have := hlow g hg hcontra.1.2
    omega
  rw [hfind, hpar]

/-- C4 witness: `CLASS("S")` has only `PRIVATE FUNCTION("","secret")`
(level 2); a Public-level (0) caller gets nil. -/
theorem access_below_level_witness :
    CALLCLASS regS 1 "S"
        [some (.vstr "S_1"), some (.vstr "secret"), none, some (.vnum 0)] emptyState
      = (emptyState, none) :=
  access_below_level regS 0 "S" clsS "S_1" "secret" none 0 emptyState rfl
    (by decide) (by decide) (by decide) (by decide) (by decide)
    (by intro g hg _
        simp only [clsS, List.mem_singleton] at hg
        subst hg
        decide)
    rfl

/-- C5 counterexample.  The claim asserts `"static"` dispatches with full
access (reaching Private members).  On `CLASS("S")` whose only member is
`PRIVATE FUNCTION("","secret")` (whose handler returns `"ok"`), the static
call yields nil, while the same member call issued at access level 2 runs
the handler — so the access level used by `"static"` is not 2. -/
theorem static_access_cex :
    (CALLCLASS regS 3 "S"
        [some (.vstr "static"), some (.vstr "secret"), none] emptyState).2 = none
    ∧ (CALLCLASS regS 3 "S"
        [some (.vstr "S"), some (.vstr "secret"), none, some (.vnum 2)] emptyState).2
      = some (.vstr "ok") := by
  refine ⟨by decide, by decide⟩

/-- C5 (amended).  The `"static"` operation re-enters the same class with
the class name as the instance identifier and requester access level `0`
(Public), not full access: members guarded at level 1 or higher are not
reachable through `"static"` (absent a parent, such a call yields nil). -/
theorem static_public_access (reg : Registry) (fuel : Nat) (cn : String) (cls : OopClass)
    (ms : String) (x : Option Value) (st : GameState)
    (hreg : reg cn = some cls) :
    CALLCLASS reg (fuel + 2) cn [some (.vstr "static"), some (.vstr ms), x] st
      = CALLCLASS reg (fuel + 1) cn
          [some (.vstr cn), some (.vstr ms), x, some (.vnum 0)] st
    ∧ (¬ cn = "" → sqfEq cn "new" = false → sqfEq cn "delete" = false →
        sqfEq cn "static" = false → ¬ ms = "" →
        (∀ g ∈ cls.guards, sqfEq ms g.memberName = true → 1 ≤ g.level) →
        cls.parent = none →
        CALLCLASS reg (fuel + 2) cn
            [some (.vstr "static"), some (.vstr ms), x] st = (st, none)) := by
  have hstat := CALLCLASS_static_eq reg (fuel + 1) cn cls ms x st hreg
  refine ⟨hstat, ?_⟩
  intro hcn hnew hdel hsta hms hlev hpar
  rw [hstat]
  rw [CALLCLASS_member_eq reg fuel cn cls cn ms x 0 st hreg hcn hnew hdel hsta hms]
  have hfind : cls.guards.find?
      (fun g => matchGuard g 0 ms (argTypeOf x)) = none := by
    apply List.find?_eq_none.mpr
    intro g hg hcontra
    simp only [matchGuard, Bool.and_eq_true, decide_eq_true_eq] at hcontra
    have := hlev g hg hcontra.1.2
    omega
  rw [hfind, hpar]

/-- C5 witness: on `CLASS("S")` the static call forwards at access level 0
and, the only member being `PRIVATE`, yields nil. -/
theorem static_public_access_witness :
    CALLCLASS regS 3 "S" [some (.vstr "static"), some (.vstr "secret"), none] emptyState
      = CALLCLASS regS 2 "S"
          [some (.vstr "S"), some (.vstr "secret"), none, some (.vnum 0)] emptyState
    ∧ CALLCLASS regS 3 "S" [some (.vstr "static"), some (.vstr "secret"), none] emptyState
      = (emptyState, none) := by
  have h := static_public_access regS 1 "S" clsS "secret" none emptyState rfl
  exact ⟨h.1, h.2 (by decide) (by decide) (by decide) (by decide) (by decide)
    (by intro g hg _
        simp only [clsS, List.mem_singleton] at hg
        subst hg
        decide)
    rfl⟩

/-- A minted instance identifier always contains an underscore, so it is
never the empty string. -/
theorem mkInstId_ne_empty (cn : String) (n : Int) : ¬ mkInstId cn n = "" := by
  intro h
  have hd := congrArg String.data h
  simp [mkInstId, String.data_append] at hd

/-- A minted instance identifier is never (case-insensitively) equal to a
string containing no underscore, in particular not to the reserved
selectors `"new"`, `"delete"`, `"static"`. -/
theorem sqfEq_mkInstId (cn : String) (n : Int) (s : String)
    (hs : ¬ '_' ∈ s.data.map lowerChar) : sqfEq (mkInstId cn n) s = false := by
  cases h : sqfEq (mkInstId cn n) s with
  | false => rfl
  | true =>
    exfalso
    apply hs
    have hl : (mkInstId cn n).data.map lowerChar = s.data.map lowerChar := by
      simpa [sqfEq] using h
    rw [← hl]
    refine List.mem_map.mpr ⟨'_', ?_, by decide⟩
    have h1 : '_' ∈ ("_" : String).data := by decide
    simp only [mkInstId, String.data_append]
    exact List.mem_append.mpr (Or.inl (List.mem_append.mpr (Or.inr h1)))

/-- C6.  Instance identifiers are fresh: (i) `"new"` returns the handle
minted from `className` and the bumped per-class counter; (ii) provided the
constructor call leaves the counter key at its bumped value, the counter
after `"new"` is the old counter plus one; (iii) the `"delete"` branch only
runs the deconstructor through the handle — the dispatcher itself never
writes the counter; (iv) two `"new"` calls issued at states whose counters
differ (the second at least as large, as counters only grow) return
distinct handles. -/
theorem instance_id_unique (reg : Registry) (f1 f2 f3 : Nat) (cn : String) (cls : OopClass)
    (a1 a2 : Option Value) (st1 st2 : GameState) (r : InstanceRef) (x : Option Value)
    (st : GameState) (hreg : reg cn = some cls) :
    (CALLCLASS reg (f1 + 1) cn [some (.vstr "new"), a1] st1).2
      = some (.vcode ⟨mkInstId cn (GET_AUTO_INC st1 cn + 1), cn⟩)
    ∧ ((CALLCLASS reg f1 cn
          [some (.vstr (mkInstId cn (GET_AUTO_INC st1 cn + 1))),
           some (.vstr CONSTRUCTOR_METHOD), a1, some (.vnum 0)]
          (setVariable st1 (AUTO_INC_VAR cn)
            (some (.vnum (GET_AUTO_INC st1 cn + 1))))).1 (AUTO_INC_VAR cn)
        = some (.vnum (GET_AUTO_INC st1 cn + 1)) →
       GET_AUTO_INC (CALLCLASS reg (f1 + 1) cn [some (.vstr "new"), a1] st1).1 cn
        = GET_AUTO_INC st1 cn + 1)
    ∧ (CALLCLASS reg (f3 + 1) cn [some (.vstr "delete"), some (.vcode r), x] st
        = CALLCLASS reg f3 r.clsName
            [some (.vstr r.instId), some (.vstr DECONSTRUCTOR_METHOD), x, some (.vnum 0)] st)
    ∧ (0 ≤ GET_AUTO_INC st1 cn → GET_AUTO_INC st1 cn < GET_AUTO_INC st2 cn →
        (CALLCLASS reg (f1 + 1) cn [some (.vstr "new"), a1] st1).2
          ≠ (CALLCLASS reg (f2 + 1) cn [some (.vstr "new"), a2] st2).2) := by
  refine ⟨?_, ?_, ?_, ?_⟩
  · rw [CALLCLASS_new_eq reg f1 cn cls a1 st1 hreg]
  · intro hpres
    rw [CALLCLASS_new_eq reg f1 cn cls a1 st1 hreg]
    exact GET_AUTO_INC_eq _ cn _ hpres
  · exact CALLCLASS_delete_eq reg f3 cn cls r x st hreg
  · intro h0 hlt
    rw [CALLCLASS_new_eq reg f1 cn cls a1 st1 hreg,
        CALLCLASS_new_eq reg f2 cn cls a2 st2 hreg]
    intro heq
    simp only [Option.some.injEq, Value.vcode.injEq, InstanceRef.mk.injEq] at heq
    exact mkInstId_inj cn (by omega) (by omega) (by omega) heq.1

/-- C6 witness: on `CLASS("CV")` the first `"new"` mints `CV_1`, bumps the
counter to `1`, `"delete"` only re-dispatches to the deconstructor, and a
`"new"` issued at the bumped state mints a different handle. -/
theorem instance_id_unique_witness :
    (CALLCLASS regCV 2 "CV" [some (.vstr "new"), none] emptyState).2
      = some (.vcode ⟨mkInstId "CV" (GET_AUTO_INC emptyState "CV" + 1), "CV"⟩)
    ∧ GET_AUTO_INC (CALLCLASS regCV 2 "CV" [some (.vstr "new"), none] emptyState).1 "CV"
      = GET_AUTO_INC emptyState "CV" + 1
    ∧ CALLCLASS regCV 1 "CV"
        [some (.vstr "delete"), some (.vcode ⟨"CV_1", "CV"⟩), none] emptyState
      = CALLCLASS regCV 0 "CV"
          [some (.vstr "CV_1"), some (.vstr DECONSTRUCTOR_METHOD), none, some (.vnum 0)]
          emptyState
    ∧ (CALLCLASS regCV 2 "CV" [some (.vstr "new"), none] emptyState).2
      ≠ (CALLCLASS regCV 2 "CV" [some (.vstr "new"), none]
          (setVariable emptyState (AUTO_INC_VAR "CV") (some (.vnum 1)))).2 := by
  have h := instance_id_unique regCV 1 1 0 "CV" clsCV none none emptyState
    (setVariable emptyState (AUTO_INC_VAR "CV") (some (.vnum 1))) ⟨"CV_1", "CV"⟩ none
    emptyState rfl
  exact ⟨h.1, h.2.1 (by decide), h.2.2.1, h.2.2.2 (by decide) (by decide)⟩

/-- C7.  A static variable guard reads and writes the class-keyed slot
`GETSVAR` regardless of which instance issues the call, so a write through
one instance is observed by a read through another; a non-static variable
guard writes the instance-keyed slot `GETVAR` instead. -/
theorem static_var_sharing (reg : Registry) (fuel : Nat) (cn : String) (cls : OopClass)
    (id1 id2 ms mv : String) (acc1 acc2 accv : Int) (v w : Value) (gs gv : Guard)
    (t tv : String) (st st' : GameState)
    (hreg : reg cn = some cls)
    (hid1 : ¬ id1 = "") (hnew1 : sqfEq id1 "new" = false)
    (hdel1 : sqfEq id1 "delete" = false) (hsta1 : sqfEq id1 "static" = false)
    (hid2 : ¬ id2 = "") (hnew2 : sqfEq id2 "new" = false)
    (hdel2 : sqfEq id2 "delete" = false) (hsta2 : sqfEq id2 "static" = false)
    (hms : ¬ ms = "") (hmv : ¬ mv = "")
    (hskind : gs.kind = .svar t)
    (hfindW : cls.guards.find? (fun g' => matchGuard g' acc1 ms (typeName v)) = some gs)
    (hfindR : cls.guards.find? (fun g' => matchGuard g' acc2 ms "") = some gs)
    (hvkind : gv.kind = .var tv)
    (hfindV : cls.guards.find? (fun g' => matchGuard g' accv mv (typeName w)) = some gv) :
    CALLCLASS reg (fuel + 1) cn
        [some (.vstr id1), some (.vstr ms), some v, some (.vnum acc1)] st
      = (setVariable st (GETSVAR cn gs.memberName) (some v), none)
    ∧ CALLCLASS reg (fuel + 1) cn
        [some (.vstr id2), some (.vstr ms), none, some (.vnum acc2)] st'
      = (st', st' (GETSVAR cn gs.memberName))
    ∧ (CALLCLASS reg (fuel + 1) cn
        [some (.vstr id2), some (.vstr ms), none, some (.vnum acc2)]
        (CALLCLASS reg (fuel + 1) cn
          [some (.vstr id1), some (.vstr ms), some v, some (.vnum acc1)] st).1).2
      = some v
    ∧ CALLCLASS reg (fuel + 1) cn
        [some (.vstr id1), some (.vstr mv), some w, some (.vnum accv)] st
      = (setVariable st (GETVAR id1 gv.memberName) (some w), none) := by
  have hw : ∀ s : GameState, CALLCLASS reg (fuel + 1) cn
      [some (.vstr id1), some (.vstr ms), some v, some (.vnum acc1)] s
        = (setVariable s (GETSVAR cn gs.memberName) (some v), none) := by
    intro s
    rw [CALLCLASS_member_eq reg fuel cn cls id1 ms (some v) acc1 s hreg hid1 hnew1 hdel1
      hsta1 hms]
    have ha : argTypeOf (some v) = typeName v := rfl
    rw [ha, hfindW]
    simp [execGuard, hskind, SVAR_DFT_FUNC]
  have hr : ∀ s : GameState, CALLCLASS reg (fuel + 1) cn
      [some (.vstr id2), some (.vstr ms), none, some (.vnum acc2)] s
        = (s, s (GETSVAR cn gs.memberName)) := by
    intro s
    rw [CALLCLASS_member_eq reg fuel cn cls id2 ms none acc2 s hreg hid2 hnew2 hdel2
      hsta2 hms]
    have ha : argTypeOf none = "" := rfl
    rw [ha, hfindR]
    simp [execGuard, hskind, SVAR_DFT_FUNC]
  refine ⟨hw st, hr st', ?_, ?_⟩
  · rw [hw st, hr (setVariable st (GETSVAR cn gs.memberName) (some v))]
    simp [setVariable]
  · rw [CALLCLASS_member_eq reg fuel cn cls id1 mv (some w) accv st hreg hid1 hnew1 hdel1
      hsta1 hmv]
    have ha : argTypeOf (some w) = typeName w := rfl
    rw [ha, hfindV]
    simp [execGuard, hvkind, VAR_DFT_FUNC]

/-- C7 witness: on `CLASS("SV")`, writing `7` to static variable `sv`
through `SV_1` stores it under `SV_sv`; reading `sv` through `SV_2`
returns `7`; writing instance variable `iv` through `SV_1` stores under
`SV_1_iv`. -/
theorem static_var_sharing_witness :
    CALLCLASS regSV 1 "SV"
        [some (.vstr "SV_1"), some (.vstr "sv"), some (.vnum 7), some (.vnum 0)] emptyState
      = (setVariable emptyState (GETSVAR "SV" "sv") (some (.vnum 7)), none)
    ∧ CALLCLASS regSV 1 "SV"
        [some (.vstr "SV_2"), some (.vstr "sv"), none, some (.vnum 0)] emptyState
      = (emptyState, emptyState (GETSVAR "SV" "sv"))
    ∧ (CALLCLASS regSV 1 "SV"
        [some (.vstr "SV_2"), some (.vstr "sv"), none, some (.vnum 0)]
        (CALLCLASS regSV 1 "SV"
          [some (.vstr "SV_1"), some (.vstr "sv"), some (.vnum 7), some (.vnum 0)]
          emptyState).1).2
      = some (.vnum 7)
    ∧ CALLCLASS regSV 1 "SV"
        [some (.vstr "SV_1"), some (.vstr "iv"), some (.vnum 9), some (.vnum 0)] emptyState
      = (setVariable emptyState (GETVAR "SV_1" "iv") (some (.vnum 9)), none) := by
  have h := static_var_sharing regSV 0 "SV" clsSV "SV_1" "SV_2" "sv" "iv" 0 0 0
    (.vnum 7) (.vnum 9) ⟨0, "sv", .svar "SCALAR"⟩ ⟨0, "iv", .var "SCALAR"⟩
    "SCALAR" "SCALAR" emptyState emptyState rfl
    (by decide) (by decide) (by decide) (by decide)
    (by decide) (by decide) (by decide) (by decide)
    (by decide) (by decide) rfl rfl rfl rfl rfl
  exact h

/-- C8.  The dispatcher has no error channel — its result type carries only
a state and an optional value — and each failure mode yields nil with the
namespace untouched: an unmatched member call on a parentless class, a call
on an unregistered class name, and a `"delete"` whose handle argument is
absent. -/
theorem silent_failure (reg : Registry) (fuel : Nat) (cn cnMissing : String)
    (cls : OopClass) (id member : String) (arg x : Option Value) (acc : Int)
    (st : GameState) (args : List (Option Value))
    (hid : ¬ id = "") (hnew : sqfEq id "new" = false) (hdel : sqfEq id "delete" = false)
    (hsta : sqfEq id "static" = false) (hmem : ¬ member = "") :
    (reg cn = some cls →
      (∀ g ∈ cls.guards, matchGuard g acc member (argTypeOf arg) = false) →
      cls.parent = none →
      CALLCLASS reg (fuel + 1) cn
          [some (.vstr id), some (.vstr member), arg, some (.vnum acc)] st = (st, none))
    ∧ (reg cnMissing = none → CALLCLASS reg fuel cnMissing args st = (st, none))
    ∧ (reg cn = some cls →
        CALLCLASS reg (fuel + 1) cn [some (.vstr "delete"), none, x] st = (st, none)) := by
  refine ⟨?_, ?_, ?_⟩
  · intro hreg hnom hpar
    rw [CALLCLASS_member_eq reg fuel cn cls id member arg acc st hreg hid hnew hdel hsta hmem]
    have hfind : cls.guards.find?
        (fun g => matchGuard g acc member (argTypeOf arg)) = none := by
      apply List.find?_eq_none.mpr
      intro g hg
      simp [hnom g hg]
    rw [hfind, hpar]
  · intro hmiss
    cases fuel with
    | zero => rfl
    | succ f => simp [CALLCLASS, hmiss]
  · intro hreg
    exact CALLCLASS_delete_absent reg fuel cn cls x st hreg

/-- C8 witness: on the `Pa`/`Ch` registry, the member `"zz"` unmatched on
parentless `Pa` yields nil; the unregistered class `"Nope"` yields nil; a
`"delete"` with an absent handle yields nil. -/
theorem silent_failure_witness :
    CALLCLASS regI 1 "Pa"
        [some (.vstr "Pa_1"), some (.vstr "zz"), none, some (.vnum 0)] emptyState
      = (emptyState, none)
    ∧ CALLCLASS regI 1 "Nope"
        [some (.vstr "Nope_1"), some (.vstr "zz"), none, some (.vnum 0)] emptyState
      = (emptyState, none)
    ∧ CALLCLASS regI 1 "Pa" [some (.vstr "delete"), none, none] emptyState
      = (emptyState, none) := by
  have h := silent_failure regI 0 "Pa" "Nope" clsPa "Pa_1" "zz" none none 0 emptyState
    [some (.vstr "Nope_1"), some (.vstr "zz"), none, some (.vnum 0)]
    (by decide) (by decide) (by decide) (by decide) (by decide)
  exact ⟨h.1 rfl
      (by intro g hg
          simp only [clsPa, List.mem_singleton] at hg
          subst hg
          decide)
      rfl,
    h.2.1 rfl, h.2.2 rfl⟩

/-- C9.  `"new"` dispatches the constructor — and `"delete"` the
deconstructor — at requester access level `0` (Public).  Consequently a
constructor guarded `PRIVATE` or `PROTECTED` in the instantiated class
never runs (the state change of `"new"` is exactly the counter bump, and
the fresh handle is still returned), and a likewise guarded deconstructor
never runs under `"delete"` (nil, state untouched). -/
theorem ctor_dtor_access (reg : Registry) (fuel : Nat) (cn : String) (cls : OopClass)
    (a x : Option Value) (st : GameState) (r : InstanceRef) (clsR : OopClass)
    (hreg : reg cn = some cls) :
    CALLCLASS reg (fuel + 1) cn [some (.vstr "new"), a] st
      = ((CALLCLASS reg fuel cn
            [some (.vstr (mkInstId cn (GET_AUTO_INC st cn + 1))),
             some (.vstr CONSTRUCTOR_METHOD), a, some (.vnum 0)]
            (setVariable st (AUTO_INC_VAR cn)
              (some (.vnum (GET_AUTO_INC st cn + 1))))).1,
         some (.vcode ⟨mkInstId cn (GET_AUTO_INC st cn + 1), cn⟩))
    ∧ ((∀ g ∈ cls.guards, sqfEq CONSTRUCTOR_METHOD g.memberName = true → 1 ≤ g.level) →
        cls.parent = none →
        CALLCLASS reg (fuel + 2) cn [some (.vstr "new"), a] st
          = (setVariable st (AUTO_INC_VAR cn) (some (.vnum (GET_AUTO_INC st cn + 1))),
             some (.vcode ⟨mkInstId cn (GET_AUTO_INC st cn + 1), cn⟩)))
    ∧ (reg r.clsName = some clsR →
        (∀ g ∈ clsR.guards, sqfEq DECONSTRUCTOR_METHOD g.memberName = true → 1 ≤ g.level) →
        clsR.parent = none →
        ¬ r.instId = "" → sqfEq r.instId "new" = false → sqfEq r.instId "delete" = false →
        sqfEq r.instId "static" = false →
        CALLCLASS reg (fuel + 2) cn [some (.vstr "delete"), some (.vcode r), x] st
          = (st, none)) := by
  refine ⟨CALLCLASS_new_eq reg fuel cn cls a st hreg, ?_, ?_⟩
  · intro hlev hpar
    rw [CALLCLASS_new_eq reg (fuel + 1) cn cls a st hreg]
    rw [CALLCLASS_member_eq reg fuel cn cls (mkInstId cn (GET_AUTO_INC st cn + 1))
      CONSTRUCTOR_METHOD a 0
      (setVariable st (AUTO_INC_VAR cn) (some (.vnum (GET_AUTO_INC st cn + 1)))) hreg
      (mkInstId_ne_empty cn (GET_AUTO_INC st cn + 1))
      (sqfEq_mkInstId cn (GET_AUTO_INC st cn + 1) "new" (by decide))
      (sqfEq_mkInstId cn (GET_AUTO_INC st cn + 1) "delete" (by decide))
      (sqfEq_mkInstId cn (GET_AUTO_INC st cn + 1) "static" (by decide))
      (by decide)]
    have hfind : cls.guards.find?
        (fun g => matchGuard g 0 CONSTRUCTOR_METHOD (argTypeOf a)) = none := by
      apply List.find?_eq_none.mpr
      intro g hg hcontra
      simp only [matchGuard, Bool.and_eq_true, decide_eq_true_eq] at hcontra
      have := hlev g hg hcontra.1.2
      omega
    rw [hfind, hpar]
  · intro hregR hlev hpar hid hnew hdel hsta
    rw [CALLCLASS_delete_eq reg (fuel + 1) cn cls r x st hreg]
    rw [CALLCLASS_member_eq reg fuel r.clsName clsR r.instId DECONSTRUCTOR_METHOD x 0 st
      hregR hid hnew hdel hsta (by decide)]
    have hfind : clsR.guards.find?
        (fun g => matchGuard g 0 DECONSTRUCTOR_METHOD (argTypeOf x)) = none := by
      apply List.find?_eq_none.mpr
      intro g hg hcontra
      simp only [matchGuard, Bool.and_eq_true, decide_eq_true_eq] at hcontra
      have := hlev g hg hcontra.1.2
      omega
    rw [hfind, hpar]

/-- C9 witness: on `CLASS("PC")` (PRIVATE constructor, PROTECTED
deconstructor, no parent), `"new"` only bumps the counter and still returns
the handle `PC_1`, and `"delete"` of that handle yields nil with the
namespace untouched. -/
theorem ctor_dtor_access_witness :
    CALLCLASS regPC 2 "PC" [some (.vstr "new"), none] emptyState
      = (setVariable emptyState (AUTO_INC_VAR "PC")
          (some (.vnum (GET_AUTO_INC emptyState "PC" + 1))),
         some (.vcode ⟨mkInstId "PC" (GET_AUTO_INC emptyState "PC" + 1), "PC"⟩))
    ∧ CALLCLASS regPC 2 "PC"
        [some (.vstr "delete"), some (.vcode ⟨"PC_1", "PC"⟩), none] emptyState
      = (emptyState, none) := by
  have h := ctor_dtor_access regPC 0 "PC" clsPC none none emptyState ⟨"PC_1", "PC"⟩ clsPC rfl
  refine ⟨h.2.1 ?_ rfl, h.2.2 rfl ?_ rfl (by decide) (by decide) (by decide) (by decide)⟩
  · intro g hg hx
    simp only [clsPC, List.mem_cons, List.mem_singleton] at hg
    rcases hg with rfl | rfl | h'
    · decide
    · exact absurd hx (by decide)
    · exact absurd h' (by simp)
  · intro g hg hx
    simp only [clsPC, List.mem_cons, List.mem_singleton] at hg
    rcases hg with rfl | rfl | h'
    · exact absurd hx (by decide)
    · decide
    · exact absurd h' (by simp)

/-- C10.  A dispatched call whose first element is the empty string (or not
a string at all, so that `param [0, "", [""]]` falls back to `""`) yields
nil immediately; likewise a call whose member-name slot is empty or not a
string, for any non-reserved instance identifier.  In both cases the result
is nil and the namespace untouched, for every guard chain and parent. -/
theorem empty_selector (reg : Registry) (fuel : Nat) (cn : String) (cls : OopClass)
    (args : List (Option Value)) (st : GameState)
    (hreg : reg cn = some cls) :
    (paramStr args 0 = "" → CALLCLASS reg (fuel + 1) cn args st = (st, none))
    ∧ (¬ paramStr args 0 = "" → sqfEq (paramStr args 0) "new" = false →
        sqfEq (paramStr args 0) "delete" = false →
        sqfEq (paramStr args 0) "static" = false →
        paramStr args 1 = "" →
        CALLCLASS reg (fuel + 1) cn args st = (st, none)) := by
  constructor
  · intro h0
    simp [CALLCLASS, hreg, h0]
  · intro h0 hnew hdel hsta h1
    simp [CALLCLASS, hreg, h0, hnew, hdel, hsta, h1]

/-- C10 witness: on `CLASS("Pa")`, `["", "m"]` yields nil, and
`["Pa_1", ""]` yields nil. -/
theorem empty_selector_witness :
    CALLCLASS regI 1 "Pa" [some (.vstr ""), some (.vstr "m")] emptyState
      = (emptyState, none)
    ∧ CALLCLASS regI 1 "Pa" [some (.vstr "Pa_1"), some (.vstr "")] emptyState
      = (emptyState, none) := by
  refine ⟨(empty_selector regI 0 "Pa" clsPa
      [some (.vstr ""), some (.vstr "m")] emptyState rfl).1 (by decide),
    (empty_selector regI 0 "Pa" clsPa
      [some (.vstr "Pa_1"), some (.vstr "")] emptyState rfl).2
      (by decide) (by decide) (by decide) (by decide) (by decide)⟩

end Oop
